import Mathlib

/-!
Shallow embedding of `arqual.py`, a command-line client for an air-quality
feature-query service, together with theorems checking the natural-language
specification against it.

The embedding models:
* the query-predicate builder (`add_parameter`, the chained `where`
  construction shared by the `indexes` and `alerts` operations, `build_url`
  with percent-encoding of the filter),
* date normalization (`format_short_date`, covering both the
  epoch-milliseconds and the date-like representation; the calendar
  conversion follows the proleptic-Gregorian civil-from-days algorithm that
  `datetime.utcfromtimestamp(...).strftime("%Y-%m-%d")` computes, with
  floor division throughout, matching Python real division of the
  millisecond value by 1000),
* the three report operations (`get_stations`, `get_indexes`, `get_alerts`)
  as functions from their string arguments, an ambient "today" (a civil day
  count, standing for `datetime.today()`), and a transport oracle
  (URL -> HTTP response) to a trace of issued requests, printed lines and a
  control-flow result. `print(x)` is one emitted line; a silent `return`
  after a failed status/error check emits nothing; `exit(1)` is the
  `usageExit` result; an uncaught `KeyError` from a missing `features` key
  is the `keyFault` result.

Python's falsy test `if value:` on the optional string arguments is modelled
as comparison with `""` (the recursive calls in `get_indexes` pass `None`,
which is falsy exactly like `""`). The mutable `previous_date` /
`previous_station` variables, initialized to `""` and compared against
integer-valued attributes, are modelled as an `Option` key that starts as
`none`: in Python an integer attribute never equals the initial `""`, and
afterwards the variables hold the previous feature's integer key.
-/

/-! ## Strings and percent-encoding -/

/-- Auxiliary: appending strings is associative (data-level fact). -/
theorem strAppend_assoc (a b c : String) : (a ++ b) ++ c = a ++ (b ++ c) :=
  String.append_assoc a b c

/-- Auxiliary: a concatenation is empty iff both parts are. -/
theorem strAppend_eq_empty (a b : String) : a ++ b = "" ↔ a = "" ∧ b = "" := by
  cases a; cases b; simp [String.ext_iff]

/-- UTF-8 bytes of one character, as natural numbers (standard encoding). -/
def utf8Bytes (c : Char) : List ℕ :=
  let n := c.toNat
  if n < 128 then [n]
  else if n < 2048 then [192 + n / 64, 128 + n % 64]
  else if n < 65536 then [224 + n / 4096, 128 + (n / 64) % 64, 128 + n % 64]
  else [240 + n / 262144, 128 + (n / 4096) % 64, 128 + (n / 64) % 64, 128 + n % 64]

/-- Uppercase hexadecimal digit for a value below 16. -/
def hexDigit (n : ℕ) : Char :=
  if n < 10 then Char.ofNat (48 + n) else Char.ofNat (55 + n)

/-- Bytes left intact by `urllib.parse.quote` with its default `safe='/'`:
letters, digits, `_`, `.`, `-`, `~` and `/`. -/
def quoteSafe (b : ℕ) : Bool :=
  (65 ≤ b && b ≤ 90) || (97 ≤ b && b ≤ 122) || (48 ≤ b && b ≤ 57) ||
  b == 95 || b == 46 || b == 45 || b == 126 || b == 47

/-- Percent-encoding of a single byte: kept verbatim when safe, else `%XX`. -/
def quoteByte (b : ℕ) : String :=
  if quoteSafe b then String.mk [Char.ofNat b]
  else String.mk ['%', hexDigit (b / 16), hexDigit (b % 16)]

/-- `urllib.parse.quote(s)`: percent-encode the UTF-8 bytes of `s`. -/
def urlQuote (s : String) : String :=
  String.join (s.data.map (fun c => String.join ((utf8Bytes c).map quoteByte)))

/-! ## The predicate builder (`add_parameter`, `build_url`) -/

/-- `add_parameter` of `arqual.py`: append `name OP 'value'` to `statement`
when `value` is non-empty, separated by the logical operator when the
statement is already non-empty. -/
def add_parameter (statement name value comparison_operator logical_operator : String) :
    String :=
  if value = "" then statement
  else
    (if statement = "" then statement
     else statement ++ " " ++ logical_operator ++ " ") ++
    name ++ comparison_operator ++ "'" ++ value ++ "'"

/-- The chained `where`-expression built identically by `get_indexes` and
`get_alerts`: date `=`, date-min `>=`, date-max `<=`, station `=`,
pollutant `=`, in declaration order. -/
def build_where (date date_min date_max station pollutant : String) : String :=
  add_parameter
    (add_parameter
      (add_parameter
        (add_parameter
          (add_parameter "" "data" date "=" "and")
          "data" date_min ">=" "and")
        "data" date_max "<=" "and")
      "estacao_id" station "=" "and")
    "poluente_abv" pollutant "=" "and"

/-- `build_url` of `arqual.py`. -/
def build_url (base_url whereExpr out_fields order_by return_geometry : String) : String :=
  base_url ++ "&outFields=" ++ out_fields ++ "&orderByFields=" ++ order_by ++
  "&returnGeometry=" ++ return_geometry ++ "&where=" ++ urlQuote whereExpr

def URL_ALERTAS : String :=
  "https://sniambgeoogc.apambiente.pt/getogc/rest/services/Visualizador/QAR/MapServer/9/query?f=json&spatialRel=esriSpatialRelIntersects&orderByFields=estacao_nome,data,poluente_abv"

def URL_POLUENTES : String :=
  "https://sniambgeoogc.apambiente.pt/getogc/rest/services/Visualizador/QAR/MapServer/0/query?f=json&spatialRel=esriSpatialRelIntersects&orderByFields=data,estacao_nome,poluente_abv"

def URL_GLOBAL : String :=
  "https://sniambgeoogc.apambiente.pt/getogc/rest/services/Visualizador/QAR/MapServer/1/query?f=json&spatialRel=esriSpatialRelIntersects"

def PRINT_RED_ON_BLACK : String := "\x1b[1;31;48m"

def PRINT_COLOR_RESET : String := "\x1b[0;0m"

/-! ## Specification-side filter expression (for the refinement claim C1)

These two definitions follow the spec's words, not the code: the expected
expression is the list of clauses `{field}{op}'{value}'` of the non-empty
constraints, in declaration order, joined with `" and "`. -/

/-- Spec-side: join clauses with `" and "`; empty list gives `""`, a single
clause stands alone with no leading or trailing `and`. -/
def specJoinAnd : List String → String
  | [] => ""
  | [c] => c
  | c :: c' :: rest => c ++ " and " ++ specJoinAnd (c' :: rest)

/-- Spec-side: the clauses `{field}{op}'{value}'` of the non-empty
constraints, in the fixed declaration order date-exact, date-min, date-max,
station, pollutant, with operators `=`, `>=`, `<=`, `=`, `=`. -/
def specClauses (date date_min date_max station pollutant : String) : List String :=
  ([("data", "=", date), ("data", ">=", date_min), ("data", "<=", date_max),
    ("estacao_id", "=", station), ("poluente_abv", "=", pollutant)]).filterMap
    (fun fov => if fov.2.2 = "" then none
                else some (fov.1 ++ fov.2.1 ++ "'" ++ fov.2.2 ++ "'"))

/-! ## Date normalization (`format_short_date`) -/

/-- Civil (proleptic Gregorian) date from a count of days since 1970-01-01,
as computed by `datetime.utcfromtimestamp`; `/` on `ℤ` is floor division
for these positive literal divisors, matching Python. -/
def civilFromDays (days : ℤ) : ℤ × ℤ × ℤ :=
  let z := days + 719468
  let era := z / 146097
  let doe := z - era * 146097
  let yoe := (doe - doe / 1460 + doe / 36524 - doe / 146096) / 365
  let y := yoe + era * 400
  let doy := doe - (365 * yoe + yoe / 4 - yoe / 100)
  let mp := (5 * doy + 2) / 153
  let d := doy - (153 * mp + 2) / 5 + 1
  let m := mp + (if mp < 10 then 3 else -9)
  (y + (if m ≤ 2 then 1 else 0), m, d)

/-- Zero-pad the decimal representation of `n` to width `w` (the `%Y`,
`%m`, `%d` conversions of `strftime`, with `%Y` padded to four digits). -/
def padZ (w : ℕ) (n : ℤ) : String :=
  let s := toString n
  if s.length < w then String.mk (List.replicate (w - s.length) '0') ++ s else s

/-- `strftime("%Y-%m-%d")` applied to a civil date triple. -/
def formatYMD : ℤ × ℤ × ℤ → String
  | (y, m, d) => padZ 4 y ++ "-" ++ padZ 2 m ++ "-" ++ padZ 2 d

/-- The two date representations reaching `format_short_date`: an integer
epoch value in milliseconds (from feature payloads), or a date-like object
carrying a civil date (a `datetime`). -/
inductive DateValue where
  | intMs (ms : ℤ)
  | pyDate (y m d : ℤ)
deriving Repr, DecidableEq

/-- `format_short_date` of `arqual.py`: an `int` is divided by 1000 (real
division) and converted through `utcfromtimestamp` — the printed date is the
UTC day `ms / 86400000` (floor) — while a date-like value is formatted
directly with `strftime("%Y-%m-%d")`. -/
def format_short_date : DateValue → String
  | .intMs ms => formatYMD (civilFromDays (ms / 86400000))
  | .pyDate y m d => formatYMD (y, m, d)

/-- `datetime.today().strftime("%Y-%m-%d")` for an ambient day count `t`. -/
def todayStr (t : ℤ) : String := formatYMD (civilFromDays t)

/-- `format_short_date(datetime.today() - timedelta(days=1))`. -/
def yesterdayStr (t : ℤ) : String := formatYMD (civilFromDays (t - 1))

/-! ## Feature records and the wire format -/

/-- The attribute fields of a feature record used by the core. Dates arrive
from the server as integer epoch-milliseconds; station ids are integers. -/
structure Attributes where
  data : ℤ
  estacao_id : ℤ
  estacao_nome : String
  concelho_nome : String
  poluente_abv : String
  poluente_agr : String
  avg_display : String
  indice_nome : String
  hora_display : String
  alerta : ℤ
deriving Repr, DecidableEq

/-- One record of the `features` array. -/
structure Feature where
  attributes : Attributes
deriving Repr, DecidableEq

instance : Inhabited Feature :=
  ⟨⟨⟨0, 0, "", "", "", "", "", "", "", 0⟩⟩⟩

/-- Parsed JSON body: whether an `"error"` key is present, and the
`features` array (`none` when the `"features"` key is absent). -/
structure Body where
  hasError : Bool
  features : Option (List Feature)
deriving Repr, DecidableEq

/-- What the transport returns for one `GET`. -/
structure HttpResponse where
  status_code : ℕ
  body : Body
deriving Repr, DecidableEq

/-- How an operation's control flow ended: normal completion, a silent
`return` on a non-200 status, a silent `return` on an `"error"` key, the
"No data found." path, `exit(1)` after the usage message, or an uncaught
`KeyError` from a missing `features` key. -/
inductive OpResult where
  | completed
  | transportSilent
  | serviceSilent
  | noData
  | usageExit
  | keyFault
deriving Repr, DecidableEq

/-- Observable trace of one invocation: the URLs requested in order, the
lines printed in order (one list element per `print` call), and the
control-flow result. -/
structure Trace where
  requests : List String
  output : List String
  result : OpResult
deriving Repr, DecidableEq

/-! ## Line and title formatting -/

/-- `format_index_values` of `arqual.py`. -/
def format_index_values (a : Attributes) : String :=
  let base := a.poluente_abv ++ " - " ++ a.avg_display ++ " (" ++ a.poluente_agr ++
    ") - " ++ a.indice_nome
  let withHour := if a.hora_display ≠ "N.h" then base ++ " (" ++ a.hora_display ++ ")"
    else base
  if a.alerta = 1 then withHour ++ PRINT_RED_ON_BLACK ++ " ALERTA!" ++ PRINT_COLOR_RESET
  else withHour

/-- `format_station` of `arqual.py`. -/
def format_station (f : Feature) : String :=
  f.attributes.concelho_nome ++ ", " ++ f.attributes.estacao_nome ++ " (" ++
  toString f.attributes.estacao_id ++ ")"

/-- `format_alert` of `arqual.py`. -/
def format_alert (f : Feature) : String :=
  let a := f.attributes
  let base := format_short_date (.intMs a.data) ++ " - " ++ a.poluente_abv ++ " - " ++
    a.avg_display ++ " - " ++ a.indice_nome
  if a.hora_display ≠ "N.h" then base ++ " (" ++ a.hora_display ++ ")" else base

/-- The title line printed by `get_indexes` when a new group starts (the
leading `"\n"` of the Python format string is part of the title). -/
def indexTitle (a : Attributes) : String :=
  "\n" ++ a.estacao_nome ++ " - " ++ format_short_date (.intMs a.data)

/-- The title line printed by `get_alerts` when a new group starts. -/
def alertTitle (a : Attributes) : String :=
  "\n" ++ a.estacao_nome ++ " (" ++ toString a.estacao_id ++ ") - " ++
  format_short_date (.intMs a.data)

/-- `print("-" * len(title))`: a rule of dashes, one per title character. -/
def dashRule (title : String) : String :=
  String.mk (List.replicate title.length '-')

/-! ## Grouped rendering -/

/-- Grouping key of the indexes report: the `(data, estacao_id)` pair. -/
def indexKey (f : Feature) : ℤ × ℤ := (f.attributes.data, f.attributes.estacao_id)

/-- Grouping key of the alerts report: `estacao_id` alone. -/
def alertKey (f : Feature) : ℤ := f.attributes.estacao_id

/-- The printing loop of `get_indexes`: `prev` models the
`previous_date`/`previous_station` pair (`none` for the initial `""`s,
which never equal an integer-valued key). -/
def renderIndexFeatures (prev : Option (ℤ × ℤ)) : List Feature → List String
  | [] => []
  | f :: rest =>
    if prev ≠ some (indexKey f) then
      indexTitle f.attributes :: dashRule (indexTitle f.attributes) ::
        format_index_values f.attributes :: renderIndexFeatures (some (indexKey f)) rest
    else
      format_index_values f.attributes :: renderIndexFeatures prev rest

/-- The printing loop of `get_alerts`. -/
def renderAlertFeatures (prev : Option ℤ) : List Feature → List String
  | [] => []
  | f :: rest =>
    if prev ≠ some (alertKey f) then
      alertTitle f.attributes :: dashRule (alertTitle f.attributes) ::
        format_alert f :: renderAlertFeatures (some (alertKey f)) rest
    else
      format_alert f :: renderAlertFeatures prev rest

/-- Per-feature new-group decisions of the indexes loop, in order. -/
def indexNewFlags (prev : Option (ℤ × ℤ)) : List Feature → List Bool
  | [] => []
  | f :: rest => decide (prev ≠ some (indexKey f)) :: indexNewFlags (some (indexKey f)) rest

/-- Per-feature new-group decisions of the alerts loop, in order. -/
def alertNewFlags (prev : Option ℤ) : List Feature → List Bool
  | [] => []
  | f :: rest => decide (prev ≠ some (alertKey f)) :: alertNewFlags (some (alertKey f)) rest

/-- Rendering of the indexes report driven by precomputed new-group flags:
a title block (title plus dash rule) precedes a feature's line exactly when
its flag is set. -/
def renderIndexWithFlags : List (Bool × Feature) → List String
  | [] => []
  | (b, f) :: rest =>
    (if b then [indexTitle f.attributes, dashRule (indexTitle f.attributes)] else []) ++
    format_index_values f.attributes :: renderIndexWithFlags rest

/-- Rendering of the alerts report driven by precomputed new-group flags. -/
def renderAlertWithFlags : List (Bool × Feature) → List String
  | [] => []
  | (b, f) :: rest =>
    (if b then [alertTitle f.attributes, dashRule (alertTitle f.attributes)] else []) ++
    format_alert f :: renderAlertWithFlags rest

/-! ## The three operations -/

/-- Body of `get_indexes` past the no-date fallback: build the filter and
URL, issue the request, and either return silently (non-200 status or
`"error"` key), print "No data found." (empty or absent `features`), or
print the grouped report. -/
def get_indexes_body (station_id date date_min date_max pollutant : String)
    (transport : String → HttpResponse) : Trace :=
  let w := build_where date date_min date_max station_id pollutant
  let url := build_url URL_POLUENTES w "*" "" "false"
  let resp := transport url
  if resp.status_code ≠ 200 then ⟨[url], [], .transportSilent⟩
  else if resp.body.hasError then ⟨[url], [], .serviceSilent⟩
  else
    match resp.body.features with
    | none => ⟨[url], ["No data found."], .noData⟩
    | some [] => ⟨[url], ["No data found."], .noData⟩
    | some fs => ⟨[url], renderIndexFeatures none fs, .completed⟩

/-- `get_indexes` of `arqual.py`, as a fuel-indexed recursion mirroring the
Python recursion: with no date constraint at all it recursively invokes
itself for yesterday and then for today (passing `None`, i.e. falsy like
`""`, for the range bounds) and returns; `none` means the fuel ran out
before the recursion terminated. -/
def get_indexes_fuel : ℕ → ℤ → String → String → String → String → String →
    (String → HttpResponse) → Option Trace
  | 0, _, _, _, _, _, _, _ => none
  | n + 1, today, station_id, date, date_min, date_max, pollutant, transport =>
    if date = "" ∧ date_min = "" ∧ date_max = "" then
      match get_indexes_fuel n today station_id (yesterdayStr today) "" "" pollutant
          transport,
        get_indexes_fuel n today station_id (todayStr today) "" "" pollutant transport with
      | some t1, some t2 =>
        some ⟨t1.requests ++ t2.requests, t1.output ++ t2.output, .completed⟩
      | _, _ => none
    else some (get_indexes_body station_id date date_min date_max pollutant transport)

/-- `get_stations` of `arqual.py`: default the date to yesterday, issue one
request, and print the joined station lines (a single `print` of the
`"\n"`-joined list; an empty `features` list prints the empty string, and
an absent `features` key raises `KeyError`). -/
def get_stations_run (today : ℤ) (date : String) (transport : String → HttpResponse) :
    Trace :=
  let date1 := if date = "" then yesterdayStr today else date
  let w := add_parameter "" "data" date1 "=" "and"
  let url := build_url URL_GLOBAL w "concelho_nome,estacao_id,estacao_nome"
    "concelho_nome,estacao_nome" "false"
  let resp := transport url
  if resp.status_code ≠ 200 then ⟨[url], [], .transportSilent⟩
  else if resp.body.hasError then ⟨[url], [], .serviceSilent⟩
  else
    match resp.body.features with
    | none => ⟨[url], [], .keyFault⟩
    | some fs => ⟨[url], [String.intercalate "\n" (fs.map format_station)], .completed⟩

/-- `get_alerts` of `arqual.py`: with all five constraints empty it prints
the usage message and exits with code 1 before any request; otherwise it
issues one request and renders the report grouped by station (an absent
`features` key raises `KeyError` in the `len(...)` test). -/
def get_alerts_run (station date date_min date_max pollutant : String)
    (transport : String → HttpResponse) : Trace :=
  if station = "" ∧ pollutant = "" ∧ date = "" ∧ date_min = "" ∧ date_max = "" then
    ⟨[], ["Please specify one of following: station, date or pollutant"], .usageExit⟩
  else
    let w := build_where date date_min date_max station pollutant
    let url := build_url URL_ALERTAS w "*" "data" "false"
    let resp := transport url
    if resp.status_code ≠ 200 then ⟨[url], [], .transportSilent⟩
    else if resp.body.hasError then ⟨[url], [], .serviceSilent⟩
    else
      match resp.body.features with
      | none => ⟨[url], [], .keyFault⟩
      | some [] => ⟨[url], ["No data found."], .noData⟩
      | some fs => ⟨[url], renderAlertFeatures none fs, .completed⟩

/-! ## Helper lemmas -/

/-- Auxiliary: prepending the empty string is the identity. -/
theorem strEmpty_append (s : String) : "" ++ s = s := rfl

/-- Auxiliary: the separator pieces emitted by `add_parameter` merge into
the literal `" and "`. -/
theorem sepMerge (s : String) : " " ++ ("and" ++ (" " ++ s)) = " and " ++ s := rfl

/-- Auxiliary: the field name `data` is not the empty string. -/
theorem dataNe : ("data" : String) ≠ "" := by decide

/-- Auxiliary: the field name `estacao_id` is not the empty string. -/
theorem estacaoNe : ("estacao_id" : String) ≠ "" := by decide

/-- Auxiliary: the field name `poluente_abv` is not the empty string. -/
theorem poluenteNe : ("poluente_abv" : String) ≠ "" := by decide

/-- Claim C1. For every constraint set over the five optional string
constraints, the built filter expression equals the clauses
`{field}{op}'{value}'` of the non-empty constraints, joined with `" and "`
in the fixed declaration order date-exact, date-min, date-max, station,
pollutant with operators `=`, `>=`, `<=`, `=`, `=`: the empty set gives the
empty string, one constraint gives exactly its clause with no leading or
trailing `and`, and N ≥ 2 constraints give the N clauses joined. -/
theorem build_where_matches_spec (date date_min date_max station pollutant : String) :
    build_where date date_min date_max station pollutant =
      specJoinAnd (specClauses date date_min date_max station pollutant) := by
  by_cases h1 : date = "" <;> by_cases h2 : date_min = "" <;>
    by_cases h3 : date_max = "" <;> by_cases h4 : station = "" <;>
    by_cases h5 : pollutant = "" <;>
    simp [build_where, add_parameter, specClauses, specJoinAnd, h1, h2, h3, h4, h5,
      strAppend_eq_empty, dataNe, estacaoNe, poluenteNe, strAppend_assoc, sepMerge,
      -String.reduceAppend]

/-- Auxiliary: the indexes printing loop is the flag-driven rendering of
its new-group decisions. -/
theorem renderIndex_eq_withFlags (fs : List Feature) :
    ∀ prev : Option (ℤ × ℤ),
      renderIndexFeatures prev fs = renderIndexWithFlags ((indexNewFlags prev fs).zip fs) := by
  induction fs with
  | nil => intro prev; rfl
  | cons f rest ih =>
    intro prev
    by_cases h : prev = some (indexKey f)
    · subst h
      simp [renderIndexFeatures, indexNewFlags, renderIndexWithFlags, List.zip, ih]
    · simp [renderIndexFeatures, indexNewFlags, renderIndexWithFlags, List.zip, h, ih]

/-- Auxiliary: the alerts printing loop is the flag-driven rendering of its
new-group decisions. -/
theorem renderAlert_eq_withFlags (fs : List Feature) :
    ∀ prev : Option ℤ,
      renderAlertFeatures prev fs = renderAlertWithFlags ((alertNewFlags prev fs).zip fs) := by
  induction fs with
  | nil => intro prev; rfl
  | cons f rest ih =>
    intro prev
    by_cases h : prev = some (alertKey f)
    · subst h
      simp [renderAlertFeatures, alertNewFlags, renderAlertWithFlags, List.zip, ih]
    · simp [renderAlertFeatures, alertNewFlags, renderAlertWithFlags, List.zip, h, ih]

/-- Auxiliary: the i-th new-group decision of the indexes loop compares the
i-th key with the carried previous key. -/
theorem indexNewFlags_getD (fs : List Feature) :
    ∀ (prev : Option (ℤ × ℤ)) (i : ℕ), i < fs.length →
      (indexNewFlags prev fs).getD i false =
        decide ((if i = 0 then prev else some (indexKey (fs.getD (i - 1) default))) ≠
          some (indexKey (fs.getD i default))) := by
  induction fs with
  | nil => intro prev i h; simp at h
  | cons f rest ih =>
    intro prev i h
    match i with
    | 0 => simp [indexNewFlags]
    | 1 =>
      have hj : 0 < rest.length := by simpa using h
      have := ih (some (indexKey f)) 0 hj
      simpa [indexNewFlags] using this
    | Nat.succ (Nat.succ j) =>
      have hj : j + 1 < rest.length := by simpa using h
      have := ih (some (indexKey f)) (j + 1) hj
      simpa [indexNewFlags] using this

/-- Auxiliary: the i-th new-group decision of the alerts loop compares the
i-th station with the carried previous station. -/
theorem alertNewFlags_getD (fs : List Feature) :
    ∀ (prev : Option ℤ) (i : ℕ), i < fs.length →
      (alertNewFlags prev fs).getD i false =
        decide ((if i = 0 then prev else some (alertKey (fs.getD (i - 1) default))) ≠
          some (alertKey (fs.getD i default))) := by
  induction fs with
  | nil => intro prev i h; simp at h
  | cons f rest ih =>
    intro prev i h
    match i with
    | 0 => simp [alertNewFlags]
    | 1 =>
      have hj : 0 < rest.length := by simpa using h
      have := ih (some (alertKey f)) 0 hj
      simpa [alertNewFlags] using this
    | Nat.succ (Nat.succ j) =>
      have hj : j + 1 < rest.length := by simpa using h
      have := ih (some (alertKey f)) (j + 1) hj
      simpa [alertNewFlags] using this

/-- Auxiliary: the length of a string built from a character list. -/
theorem strMk_length (l : List Char) : (String.mk l).length = l.length := rfl

/-- A concrete feature used to instantiate hypothesis-bearing theorems. -/
def sampleFeature (d s : ℤ) : Feature :=
  ⟨⟨d, s, "Entrecampos", "Lisboa", "NO2", "max", "24.0", "Bom", "N.h", 0⟩⟩

/-- Claim C3. In the indexes report a new title block is emitted before a
feature exactly when its `(date, station_id)` pair differs from the
immediately preceding feature's pair, the first feature always starting a
group; for the feature sequence `[(d1,s1),(d1,s1),(d2,s1),(d2,s2)]` exactly
3 titles are emitted, before positions 0, 2 and 3, and none before
position 1. -/
theorem indexes_grouping (fs : List Feature) (i : ℕ) (hi : i < fs.length)
    (d1 d2 s1 s2 : ℤ) (hd : d1 ≠ d2) (hs : s1 ≠ s2) (f1 f2 f3 f4 : Feature)
    (h1 : indexKey f1 = (d1, s1)) (h2 : indexKey f2 = (d1, s1))
    (h3 : indexKey f3 = (d2, s1)) (h4 : indexKey f4 = (d2, s2)) :
    renderIndexFeatures none fs = renderIndexWithFlags ((indexNewFlags none fs).zip fs) ∧
    ((indexNewFlags none fs).getD i false = true ↔
      i = 0 ∨ indexKey (fs.getD i default) ≠ indexKey (fs.getD (i - 1) default)) ∧
    indexNewFlags none [f1, f2, f3, f4] = [true, false, true, true] ∧
    renderIndexFeatures none [f1, f2, f3, f4] =
      [indexTitle f1.attributes, dashRule (indexTitle f1.attributes),
       format_index_values f1.attributes, format_index_values f2.attributes,
       indexTitle f3.attributes, dashRule (indexTitle f3.attributes),
       format_index_values f3.attributes,
       indexTitle f4.attributes, dashRule (indexTitle f4.attributes),
       format_index_values f4.attributes] := by
  refine ⟨renderIndex_eq_withFlags fs none, ?_, ?_, ?_⟩
  · rw [indexNewFlags_getD fs none i hi]
    by_cases hi0 : i = 0
    · simp [hi0]
    · simp [hi0, ne_comm]
  · simp [indexNewFlags, h1, h2, h3, h4, hd, hs, Prod.ext_iff]
  · simp [renderIndexFeatures, h1, h2, h3, h4, hd, hs, Prod.ext_iff]

/-- Claim C3 witness at concrete features with distinct dates and
stations. -/
theorem indexes_grouping_witness :
    indexNewFlags none
      [sampleFeature 0 0, sampleFeature 0 0, sampleFeature 1 0, sampleFeature 1 1] =
      [true, false, true, true] :=
  (indexes_grouping [sampleFeature 0 0] 0 (by decide) 0 1 0 1 (by decide) (by decide)
    (sampleFeature 0 0) (sampleFeature 0 0) (sampleFeature 1 0) (sampleFeature 1 1)
    rfl rfl rfl rfl).2.2.1

/-- Claim C4. In the alerts report a new title block is emitted before a
feature exactly when its station differs from the immediately preceding
feature's station; for features ordered by station `[s1,s1,s2]` exactly 2
titles are emitted, and each title is
`"{station_name} ({station_id}) - {formatted_date}"` built from the first
feature of that station's run. -/
theorem alerts_grouping (fs : List Feature) (i : ℕ) (hi : i < fs.length)
    (s1 s2 : ℤ) (hs : s1 ≠ s2) (g1 g2 g3 : Feature)
    (h1 : alertKey g1 = s1) (h2 : alertKey g2 = s1) (h3 : alertKey g3 = s2) :
    renderAlertFeatures none fs = renderAlertWithFlags ((alertNewFlags none fs).zip fs) ∧
    ((alertNewFlags none fs).getD i false = true ↔
      i = 0 ∨ alertKey (fs.getD i default) ≠ alertKey (fs.getD (i - 1) default)) ∧
    alertNewFlags none [g1, g2, g3] = [true, false, true] ∧
    renderAlertFeatures none [g1, g2, g3] =
      [alertTitle g1.attributes, dashRule (alertTitle g1.attributes), format_alert g1,
       format_alert g2,
       alertTitle g3.attributes, dashRule (alertTitle g3.attributes), format_alert g3] ∧
    (∀ a : Attributes, alertTitle a =
      "\n" ++ a.estacao_nome ++ " (" ++ toString a.estacao_id ++ ") - " ++
        format_short_date (.intMs a.data)) := by
  refine ⟨renderAlert_eq_withFlags fs none, ?_, ?_, ?_, fun a => rfl⟩
  · rw [alertNewFlags_getD fs none i hi]
    by_cases hi0 : i = 0
    · simp [hi0]
    · simp [hi0, ne_comm]
  · simp [alertNewFlags, h1, h2, h3, hs]
  · simp [renderAlertFeatures, h1, h2, h3, hs]

/-- Claim C4 witness at concrete features with distinct stations. -/
theorem alerts_grouping_witness :
    alertNewFlags none [sampleFeature 0 0, sampleFeature 1 0, sampleFeature 2 5] =
      [true, false, true] :=
  (alerts_grouping [sampleFeature 0 0] 0 (by decide) 0 5 (by decide)
    (sampleFeature 0 0) (sampleFeature 1 0) (sampleFeature 2 5) rfl rfl rfl).2.2.1

/-- Claim C9. Every title block emitted by the indexes and alerts reports is
underlined by a rule consisting solely of dash characters whose count equals
the character length of the title, and in both printing loops the rule is
the line printed immediately after the title. -/
theorem title_underline (f : Feature) (prev : Option (ℤ × ℤ)) (prevA : Option ℤ)
    (rest : List Feature) (h : prev ≠ some (indexKey f)) (hA : prevA ≠ some (alertKey f)) :
    (dashRule (indexTitle f.attributes)).length = (indexTitle f.attributes).length ∧
    (dashRule (alertTitle f.attributes)).length = (alertTitle f.attributes).length ∧
    (∀ c ∈ (dashRule (indexTitle f.attributes)).data, c = '-') ∧
    (∀ c ∈ (dashRule (alertTitle f.attributes)).data, c = '-') ∧
    renderIndexFeatures prev (f :: rest) =
      indexTitle f.attributes :: dashRule (indexTitle f.attributes) ::
        format_index_values f.attributes :: renderIndexFeatures (some (indexKey f)) rest ∧
    renderAlertFeatures prevA (f :: rest) =
      alertTitle f.attributes :: dashRule (alertTitle f.attributes) ::
        format_alert f :: renderAlertFeatures (some (alertKey f)) rest := by
  refine ⟨?_, ?_, ?_, ?_, ?_, ?_⟩
  · simp [dashRule, strMk_length]
  · simp [dashRule, strMk_length]
  · intro c hc
    exact (List.mem_replicate.mp (by simpa [dashRule] using hc)).2
  · intro c hc
    exact (List.mem_replicate.mp (by simpa [dashRule] using hc)).2
  · simp [renderIndexFeatures, h]
  · simp [renderAlertFeatures, hA]

/-- Claim C9 witness at a concrete feature with fresh previous keys. -/
theorem title_underline_witness :
    (dashRule (indexTitle (sampleFeature 0 0).attributes)).length =
      (indexTitle (sampleFeature 0 0).attributes).length :=
  (title_underline (sampleFeature 0 0) none none [] (by decide) (by decide)).1

/-- Auxiliary: the dash literal is not the empty string. -/
theorem dashNe : ("-" : String) ≠ "" := by decide

/-- Auxiliary: a formatted `YYYY-MM-DD` date is never the empty string. -/
theorem formatYMD_ne (p : ℤ × ℤ × ℤ) : formatYMD p ≠ "" := by
  obtain ⟨y, m, d⟩ := p
  simp [formatYMD, strAppend_eq_empty, dashNe]

/-- Claim C5. Date normalization: the numeric branch converts
epoch-milliseconds via the UTC day (floor of `ms / 86400000`), so
truncating to whole seconds does not change the result and
`1586908800000` yields `"2020-04-15"`; the date-like branch formats the
carried civil date the same way, so both representations of one UTC day
agree. -/
theorem date_normalization (ms d r : ℤ) (_hms : 0 ≤ ms) (hr0 : 0 ≤ r)
    (hr1 : r < 86400000) :
    format_short_date (.intMs 1586908800000) = "2020-04-15" ∧
    format_short_date (.pyDate 2020 4 15) = "2020-04-15" ∧
    format_short_date (.intMs ms) = format_short_date (.intMs (1000 * (ms / 1000))) ∧
    format_short_date (.intMs (86400000 * d + r)) =
      format_short_date
        (.pyDate (civilFromDays d).1 (civilFromDays d).2.1 (civilFromDays d).2.2) := by
  refine ⟨by decide, by decide, ?_, ?_⟩
  · have hdiv : (1000 * (ms / 1000)) / 86400000 = ms / 86400000 := by omega
    simp only [format_short_date, hdiv]
  · have hdiv : (86400000 * d + r) / 86400000 = d := by omega
    simp only [format_short_date, hdiv]

/-- Claim C5 witness: the epoch anchor, via the theorem at `ms = 0`,
`d = 18367`, `r = 0`. -/
theorem date_normalization_witness :
    format_short_date (.intMs 1586908800000) = "2020-04-15" :=
  (date_normalization 0 18367 0 (by decide) (by decide) (by decide)).1

/-! ## Transport oracles for concrete runs -/

/-- Transport that answers 200 with an empty `features` array. -/
def okEmptyTransport : String → HttpResponse := fun _ => ⟨200, ⟨false, some []⟩⟩

/-- Transport that answers HTTP 500. -/
def err500Transport : String → HttpResponse := fun _ => ⟨500, ⟨false, none⟩⟩

/-- Transport that answers 200 with an `"error"` key in the body. -/
def errKeyTransport : String → HttpResponse := fun _ => ⟨200, ⟨true, some []⟩⟩

/-- Transport that answers 200 with no `features` key at all. -/
def noFeaturesKeyTransport : String → HttpResponse := fun _ => ⟨200, ⟨false, none⟩⟩

/-- Auxiliary: two units of fuel always suffice for `get_indexes`. -/
theorem get_indexes_fuel_two_isSome (t : ℤ) (sid d dmin dmax pol : String)
    (tr : String → HttpResponse) :
    (get_indexes_fuel 2 t sid d dmin dmax pol tr).isSome := by
  by_cases h : d = "" ∧ dmin = "" ∧ dmax = ""
  · obtain ⟨h1, h2, h3⟩ := h
    subst h1; subst h2; subst h3
    have hy : yesterdayStr t ≠ "" := formatYMD_ne _
    have ht : todayStr t ≠ "" := formatYMD_ne _
    simp [get_indexes_fuel, hy, ht]
  · simp [get_indexes_fuel, h]

/-- Claim C10. The no-date fallback of the indexes operation terminates:
both recursive calls pass a non-empty date (the formatted yesterday and
today), so the all-empty branch is never re-entered, recursion depth is at
most one, and two units of fuel always produce a result — the fallback
result being exactly the yesterday-body trace followed by the today-body
trace. -/
theorem no_date_fallback_terminates (t : ℤ) (sid d dmin dmax pol : String)
    (tr : String → HttpResponse) (h : d = "" ∧ dmin = "" ∧ dmax = "") :
    yesterdayStr t ≠ "" ∧ todayStr t ≠ "" ∧
    get_indexes_fuel 2 t sid d dmin dmax pol tr =
      some ⟨(get_indexes_body sid (yesterdayStr t) "" "" pol tr).requests ++
              (get_indexes_body sid (todayStr t) "" "" pol tr).requests,
            (get_indexes_body sid (yesterdayStr t) "" "" pol tr).output ++
              (get_indexes_body sid (todayStr t) "" "" pol tr).output, .completed⟩ ∧
    (∀ (t' : ℤ) (sid' d' dmin' dmax' pol' : String) (tr' : String → HttpResponse),
      (get_indexes_fuel 2 t' sid' d' dmin' dmax' pol' tr').isSome) := by
  obtain ⟨h1, h2, h3⟩ := h
  subst h1; subst h2; subst h3
  have hy : yesterdayStr t ≠ "" := formatYMD_ne _
  have ht : todayStr t ≠ "" := formatYMD_ne _
  refine ⟨hy, ht, ?_, fun t' sid' d' dmin' dmax' pol' tr' =>
    get_indexes_fuel_two_isSome t' sid' d' dmin' dmax' pol' tr'⟩
  simp [get_indexes_fuel, hy, ht]

/-- Claim C10 witness: concrete fallback invocation, fuel 2 suffices. -/
theorem no_date_fallback_terminates_witness :
    (get_indexes_fuel 2 18367 "3072" "" "" "" "" okEmptyTransport).isSome :=
  (no_date_fallback_terminates 18367 "3072" "" "" "" "" okEmptyTransport
    ⟨rfl, rfl, rfl⟩).2.2.2 18367 "3072" "" "" "" "" okEmptyTransport

/-- Auxiliary: one body invocation of `get_indexes` issues exactly one
request and never usage-exits. -/
theorem get_indexes_body_shape (sid d dmin dmax pol : String)
    (tr : String → HttpResponse) :
    (get_indexes_body sid d dmin dmax pol tr).requests.length = 1 ∧
    (get_indexes_body sid d dmin dmax pol tr).result ≠ .usageExit := by
  unfold get_indexes_body
  dsimp only
  repeat first
  | exact ⟨rfl, fun hc => OpResult.noConfusion hc⟩
  | split

/-- Auxiliary: `get_stations` always issues exactly one request. -/
theorem get_stations_run_one_request (t : ℤ) (date : String)
    (tr : String → HttpResponse) :
    (get_stations_run t date tr).requests.length = 1 := by
  unfold get_stations_run
  dsimp only
  repeat first
  | rfl
  | split

/-- Auxiliary: `get_alerts` issues exactly one request when at least one
constraint is non-empty. -/
theorem get_alerts_run_one_request (st d dmin dmax pol : String)
    (tr : String → HttpResponse)
    (hu : ¬(st = "" ∧ pol = "" ∧ d = "" ∧ dmin = "" ∧ dmax = "")) :
    (get_alerts_run st d dmin dmax pol tr).requests.length = 1 := by
  unfold get_alerts_run
  rw [if_neg hu]
  dsimp only
  repeat first
  | rfl
  | split

/-- Claim C2 counterexample. Invoking the indexes operation with no date
constraint at all issues two remote requests (yesterday and today), not
exactly one. -/
theorem single_call_cx :
    (get_indexes_fuel 2 18367 "3072" "" "" "" "" okEmptyTransport).map
      (fun trc => trc.requests.length) = some 2 ∧ (2 : ℕ) ≠ 1 := by
  exact ⟨rfl, by decide⟩

/-- Claim C2 as amended. Each non-fallback invocation of a report operation
issues exactly one blocking request, but the indexes operation invoked with
date, date-min and date-max all empty issues exactly two sequential
requests — the yesterday body's, then the today body's. -/
theorem remote_call_counts (t : ℤ) (sid d dmin dmax pol : String)
    (tr : String → HttpResponse) :
    (get_indexes_body sid d dmin dmax pol tr).requests.length = 1 ∧
    (¬(d = "" ∧ dmin = "" ∧ dmax = "") →
      (get_indexes_fuel 2 t sid d dmin dmax pol tr).map (fun trc => trc.requests.length) =
        some 1) ∧
    (d = "" ∧ dmin = "" ∧ dmax = "" →
      (get_indexes_fuel 2 t sid d dmin dmax pol tr).map (fun trc => trc.requests) =
        some ((get_indexes_body sid (yesterdayStr t) "" "" pol tr).requests ++
          (get_indexes_body sid (todayStr t) "" "" pol tr).requests) ∧
      (get_indexes_fuel 2 t sid d dmin dmax pol tr).map (fun trc => trc.requests.length) =
        some 2) ∧
    (get_stations_run t d tr).requests.length = 1 ∧
    (¬(sid = "" ∧ pol = "" ∧ d = "" ∧ dmin = "" ∧ dmax = "") →
      (get_alerts_run sid d dmin dmax pol tr).requests.length = 1) := by
  refine ⟨(get_indexes_body_shape sid d dmin dmax pol tr).1, ?_, ?_,
    get_stations_run_one_request t d tr,
    fun hu => get_alerts_run_one_request sid d dmin dmax pol tr hu⟩
  · intro hne
    simp [get_indexes_fuel, hne, (get_indexes_body_shape sid d dmin dmax pol tr).1]
  · intro hall
    obtain ⟨h1, h2, h3⟩ := hall
    subst h1; subst h2; subst h3
    have hy : yesterdayStr t ≠ "" := formatYMD_ne _
    have ht : todayStr t ≠ "" := formatYMD_ne _
    refine ⟨by simp [get_indexes_fuel, hy, ht], ?_⟩
    simp [get_indexes_fuel, hy, ht,
      (get_indexes_body_shape sid (yesterdayStr t) "" "" pol tr).1,
      (get_indexes_body_shape sid (todayStr t) "" "" pol tr).1]

/-- Claim C2 (amended) witness: a dated indexes invocation issues exactly
one request. -/
theorem remote_call_counts_witness :
    (get_indexes_fuel 2 18367 "3072" "2020-04-15" "" "" "" okEmptyTransport).map
      (fun trc => trc.requests.length) = some 1 :=
  (remote_call_counts 18367 "3072" "2020-04-15" "" "" "" okEmptyTransport).2.1
    (by decide)

/-- Claim C6 counterexample. A stations response whose `features` list is
empty is rendered as an (empty) report and completes normally — it does not
yield the no-data condition. -/
theorem no_data_handling_cx :
    (get_stations_run 18367 "2020-04-15" okEmptyTransport).result = .completed ∧
    (get_stations_run 18367 "2020-04-15" okEmptyTransport).output = [""] ∧
    OpResult.completed ≠ OpResult.noData := by
  exact ⟨rfl, rfl, by decide⟩

/-- Claim C6 as amended. Only the indexes operation yields the no-data
condition for both an empty and an absent `features` list; the alerts
operation yields it for an empty list but faults with a missing-key error
when the key is absent; and the stations operation performs no check at
all — an empty list completes as an empty rendered report and an absent
key faults. -/
theorem no_data_handling_amended (t : ℤ) (sid d dmin dmax pol : String)
    (tr trN : String → HttpResponse)
    (hE : ∀ u, tr u = ⟨200, ⟨false, some []⟩⟩)
    (hN : ∀ u, trN u = ⟨200, ⟨false, none⟩⟩)
    (hu : ¬(sid = "" ∧ pol = "" ∧ d = "" ∧ dmin = "" ∧ dmax = "")) :
    (get_indexes_body sid d dmin dmax pol tr).result = .noData ∧
    (get_indexes_body sid d dmin dmax pol tr).output = ["No data found."] ∧
    (get_indexes_body sid d dmin dmax pol trN).result = .noData ∧
    (get_indexes_body sid d dmin dmax pol trN).output = ["No data found."] ∧
    (get_alerts_run sid d dmin dmax pol tr).result = .noData ∧
    (get_alerts_run sid d dmin dmax pol trN).result = .keyFault ∧
    (get_stations_run t d tr).result = .completed ∧
    (get_stations_run t d tr).output = [""] ∧
    (get_stations_run t d trN).result = .keyFault := by
  refine ⟨?_, ?_, ?_, ?_, ?_, ?_, ?_, ?_, ?_⟩ <;>
    simp [get_indexes_body, get_alerts_run, get_stations_run, hE, hN, hu,
      String.intercalate]

/-- Claim C6 (amended) witness: an indexes response with an empty
`features` list yields the no-data condition. -/
theorem no_data_handling_witness :
    (get_indexes_body "3072" "2020-04-15" "" "" "" okEmptyTransport).result =
      OpResult.noData :=
  (no_data_handling_amended 18367 "3072" "2020-04-15" "" "" "" okEmptyTransport
    noFeaturesKeyTransport (fun _ => rfl) (fun _ => rfl) (by decide)).1

/-- Claim C7 counterexample. On a non-200 transport status the indexes
operation prints nothing at all — no error message is surfaced. -/
theorem errors_surfaced_cx :
    (err500Transport "x").status_code ≠ 200 ∧
    (get_indexes_fuel 2 18367 "3072" "2020-04-15" "" "" "" err500Transport).map
      (fun trc => trc.output) = some [] ∧
    (get_indexes_fuel 2 18367 "3072" "2020-04-15" "" "" "" err500Transport).map
      (fun trc => trc.result) = some .transportSilent := by
  exact ⟨by decide, rfl, rfl⟩

/-- Claim C7 as amended. A non-200 transport status aborts every report
operation before parsing and a body with an `"error"` key aborts it before
rendering — a hard failure in both cases — but silently: no output line is
printed in either case. -/
theorem errors_silent_amended (t : ℤ) (sid d dmin dmax pol : String)
    (tr : String → HttpResponse)
    (hu : ¬(sid = "" ∧ pol = "" ∧ d = "" ∧ dmin = "" ∧ dmax = "")) :
    ((∀ u, (tr u).status_code ≠ 200) →
      (get_indexes_body sid d dmin dmax pol tr).output = [] ∧
      (get_indexes_body sid d dmin dmax pol tr).result = .transportSilent ∧
      (get_stations_run t d tr).output = [] ∧
      (get_stations_run t d tr).result = .transportSilent ∧
      (get_alerts_run sid d dmin dmax pol tr).output = [] ∧
      (get_alerts_run sid d dmin dmax pol tr).result = .transportSilent) ∧
    ((∀ u, (tr u).status_code = 200 ∧ (tr u).body.hasError = true) →
      (get_indexes_body sid d dmin dmax pol tr).output = [] ∧
      (get_indexes_body sid d dmin dmax pol tr).result = .serviceSilent ∧
      (get_stations_run t d tr).output = [] ∧
      (get_stations_run t d tr).result = .serviceSilent ∧
      (get_alerts_run sid d dmin dmax pol tr).output = [] ∧
      (get_alerts_run sid d dmin dmax pol tr).result = .serviceSilent) := by
  constructor
  · intro h
    refine ⟨?_, ?_, ?_, ?_, ?_, ?_⟩ <;>
      simp [get_indexes_body, get_alerts_run, get_stations_run, h, hu]
  · intro h
    have h1 : ∀ u, (tr u).status_code = 200 := fun u => (h u).1
    have h2 : ∀ u, (tr u).body.hasError = true := fun u => (h u).2
    refine ⟨?_, ?_, ?_, ?_, ?_, ?_⟩ <;>
      simp [get_indexes_body, get_alerts_run, get_stations_run, h1, h2, hu]

/-- Claim C7 (amended) witness: a 500 response leaves the indexes body
silent. -/
theorem errors_silent_witness :
    (get_indexes_body "3072" "2020-04-15" "" "" "" err500Transport).output = [] :=
  ((errors_silent_amended 18367 "3072" "2020-04-15" "" "" "" err500Transport
    (by decide)).1 (fun _ => by simp [err500Transport])).1

/-- Claim C8 counterexample. Invoking the indexes operation with no station
does not signal a usage error: a remote call is issued and the run ends in
the no-data path, not in a usage exit. -/
theorem usage_error_cx :
    (get_indexes_fuel 2 18367 "" "2020-04-15" "" "" "" okEmptyTransport).map
      (fun trc => (trc.requests.length, trc.result)) = some (1, OpResult.noData) ∧
    OpResult.noData ≠ OpResult.usageExit := by
  exact ⟨rfl, by decide⟩

/-- Claim C8 as amended. Invoking the alerts operation with all five
constraints empty prints the usage message and exits with failure before
any remote call; the indexes operation imposes no station requirement — for
every no-station invocation (any date, range bounds and pollutant,
including the no-date fallback) it proceeds to issue its query, at least
one request, and never usage-exits. -/
theorem usage_checks_amended (t : ℤ) (d dmin dmax pol : String)
    (tr : String → HttpResponse) :
    (∀ tr' : String → HttpResponse, get_alerts_run "" "" "" "" "" tr' =
      ⟨[], ["Please specify one of following: station, date or pollutant"],
        .usageExit⟩) ∧
    (∃ trc, get_indexes_fuel 2 t "" d dmin dmax pol tr = some trc ∧
      trc.result ≠ .usageExit ∧ 1 ≤ trc.requests.length) := by
  refine ⟨fun tr' => by simp [get_alerts_run], ?_⟩
  by_cases hall : d = "" ∧ dmin = "" ∧ dmax = ""
  · obtain ⟨h1, h2, h3⟩ := hall
    subst h1; subst h2; subst h3
    have hy : yesterdayStr t ≠ "" := formatYMD_ne _
    have ht : todayStr t ≠ "" := formatYMD_ne _
    refine ⟨⟨(get_indexes_body "" (yesterdayStr t) "" "" pol tr).requests ++
        (get_indexes_body "" (todayStr t) "" "" pol tr).requests,
      (get_indexes_body "" (yesterdayStr t) "" "" pol tr).output ++
        (get_indexes_body "" (todayStr t) "" "" pol tr).output, .completed⟩,
      by simp [get_indexes_fuel, hy, ht], fun hc => OpResult.noConfusion hc, ?_⟩
    rw [List.length_append, (get_indexes_body_shape "" (yesterdayStr t) "" "" pol tr).1]
    omega
  · refine ⟨get_indexes_body "" d dmin dmax pol tr, by simp [get_indexes_fuel, hall],
      (get_indexes_body_shape "" d dmin dmax pol tr).2, ?_⟩
    rw [(get_indexes_body_shape "" d dmin dmax pol tr).1]

/-- Claim C8 (amended) witness: the alerts usage exit at a concrete
transport, through the theorem at a dated indexes invocation. -/
theorem usage_checks_witness :
    get_alerts_run "" "" "" "" "" okEmptyTransport =
      ⟨[], ["Please specify one of following: station, date or pollutant"],
        OpResult.usageExit⟩ :=
  (usage_checks_amended 18367 "2020-04-15" "" "" "" okEmptyTransport).1
    okEmptyTransport
